import Mathlib

/-!
A verification development for the `posttools` package: a shallow embedding of
`posttools/timecode.py` (`Timecode`, `TimecodeRange`) and `posttools/edl.py`
(`Edl`, `Event`, `Track`, statement grammar), with theorems settling the
frozen claims about the specification.

Conventions of the embedding:
* Python `int` is `ℤ`, Python `str` is `String` (operated on through its
  character list, with structural-recursive helpers mirroring the string
  methods used by the source).
* Python float division followed by `int(...)`/`round(...)` on the
  non-negative values used by the source is modelled exactly by integer
  floor division (`Int.fdiv`) and half-to-even rounding on exact fractions
  (`pyRoundFrac`); Python `//`/`%` are `Int.fdiv`/`Int.fmod`.
* Fallible operations return `Except PyErr _`, one constructor per Python
  exception class raised by the source.
* Regular expressions of the source are modelled by equivalent
  hand-rolled matchers over the character list.
-/

deriving instance DecidableEq for Except

/-- Python `round(n / d)` for integers `n`, `d` with `d > 0`: round half to
even (bankers rounding), as the Python builtin `round` does. -/
def pyRoundFrac (n d : ℤ) : ℤ :=
  let q := Int.fdiv n d
  let r := Int.fmod n d
  if 2 * r < d then q
  else if d < 2 * r then q + 1
  else if q % 2 = 0 then q else q + 1

/-- Python exceptions raised by `posttools.timecode` and friends. -/
inductive PyErr where
  | invalidTimecode (msg : String)
  | incompatibleTimecode (msg : String)
  | valueError (msg : String)
  | notImplementedError (msg : String)
  | typeError (msg : String)
deriving DecidableEq, Repr

/-- Source `str(e)`: the message carried by the exception. -/
def PyErr.message : PyErr → String
  | .invalidTimecode m => m
  | .incompatibleTimecode m => m
  | .valueError m => m
  | .notImplementedError m => m
  | .typeError m => m

/-- Source `Timecode.Mode`: the two frame-counting modes.  In the source these are
*classes* (`Timecode.Mode.NDF`, `Timecode.Mode.DF`), not enum values: they
support `==`/`!=` (identity) but no `<`/`>` ordering. -/
inductive Timecode.Mode where
  | NDF
  | DF
deriving DecidableEq, Repr

/-- Source `Timecode.Mode.DF.to_adjusted_framenumber` (timecode.py lines 53-82),
transcribed literally.  Note: the function returns only the accumulated
drop offset (`drop_segments_elapsed * 9 * drop_offset + drop_minutes_elapsed
* drop_offset + remainder`); the incoming frame number is *not* added back. -/
def Timecode.Mode.dfToAdjustedFramenumber (framenumber rate : ℤ) : ℤ :=
  let framenumber_normalized := |framenumber|
  let drop_offset := Int.fdiv (2 * rate) 30
  let full_minute := rate * 60
  let drop_minute := full_minute - drop_offset
  let drop_segment := full_minute + drop_minute * 9
  let drop_segments_elapsed := Int.fdiv framenumber_normalized drop_segment
  let remaining_frames := Int.fmod framenumber_normalized drop_segment
  let remaining_drop_frames := max (remaining_frames - full_minute + 1) 0
  let drop_minutes_elapsed := Int.fdiv remaining_drop_frames drop_minute
  let remainder := if Int.fmod remaining_drop_frames drop_minute ≠ 0 then drop_offset else 0
  drop_segments_elapsed * (9 * drop_offset) + drop_minutes_elapsed * drop_offset + remainder

/-- Source `Mode.to_adjusted_framenumber`: identity for NDF, the drop-frame offset
computation for DF. -/
def Timecode.Mode.to_adjusted_framenumber : Timecode.Mode → ℤ → ℤ → ℤ
  | .NDF, framenumber, _ => framenumber
  | .DF, framenumber, rate => Timecode.Mode.dfToAdjustedFramenumber framenumber rate

/-- The `Timecode` value: `_framenumber`, `_rate`, `_mode`. -/
structure Timecode where
  framenumber : ℤ
  rate : ℤ
  mode : Timecode.Mode
deriving DecidableEq, Repr

/-- Source `Timecode._validate`: rate must be ≥ 1, and DF requires rate divisible
by 30. -/
def Timecode.validate (t : Timecode) : Except PyErr Unit :=
  if t.rate < 1 then
    .error (.invalidTimecode "Frame rate must be a positive number")
  else if t.mode = Timecode.Mode.DF ∧ t.rate % 30 ≠ 0 then
    .error (.invalidTimecode "Drop-frame mode only valid for rates divisible by 30")
  else
    .ok ()

/-- Source `Timecode(framenumber, rate, mode)` with an integer first argument:
store the values, then `_validate`.  (The Python `round(rate)` on an integer
rate is the identity.) -/
def Timecode.ofInt (timecode rate : ℤ) (mode : Timecode.Mode) : Except PyErr Timecode :=
  let t : Timecode := ⟨timecode, rate, mode⟩
  (t.validate).map fun _ => t

/-- Numeric value of a list of ASCII digit characters. -/
def natOfDigits (cs : List Char) : ℕ :=
  cs.foldl (fun a c => 10 * a + (c.toNat - 48)) 0

/-- One repetition chain of group 2 of `pat_tc`, `(?:[:;]?\d+){1,4}`:
consume an optional `:`/`;` separator and then a maximal run of digits, up
to `reps` times, requiring the whole input to be consumed.  Returns the
digit-run values in order (the effect of the replace/strip/split chain the
source applies to the matched text, normalizing separators). -/
def Timecode.tcGroupsAux : ℕ → List Char → Option (List ℕ)
  | 0, _ => none
  | reps + 1, cs =>
    let cs2 := match cs with
      | c :: rest => if c = ':' ∨ c = ';' then rest else c :: rest
      | [] => []
    let p := cs2.span Char.isDigit
    if p.1.isEmpty then none
    else if p.2.isEmpty then some [natOfDigits p.1]
    else (Timecode.tcGroupsAux reps p.2).map (natOfDigits p.1 :: ·)

/-- Source `Timecode.pat_tc.match`: `^([+-])?((?:[:;]?\d+){1,4})$`.  Returns
(negative?, digit groups) on a match. -/
def Timecode.matchTc (s : String) : Option (Bool × List ℕ) :=
  match s.data with
  | [] => none
  | c :: rest =>
    if c = '+' then (Timecode.tcGroupsAux 4 rest).map ((false, ·))
    else if c = '-' then (Timecode.tcGroupsAux 4 rest).map ((true, ·))
    else (Timecode.tcGroupsAux 4 (c :: rest)).map ((false, ·))

/-- The while-loop of `_setFromString`: weight the groups by position
(4 remaining ⇒ hours, 3 ⇒ minutes, 2 ⇒ seconds, 1 ⇒ frames). -/
def Timecode.framenumberOfGroups (rate : ℤ) : List ℕ → ℤ
  | [] => 0
  | g :: rest =>
    let weight : ℤ := match rest.length + 1 with
      | 4 => 60 * 60 * rate
      | 3 => 60 * rate
      | 2 => rate
      | _ => 1
    (g : ℤ) * weight + Timecode.framenumberOfGroups rate rest

/-- Source `Timecode._setFromString`: regex match, then the accumulation loop,
then the sign. -/
def Timecode.setFromString (rate : ℤ) (timecode : String) : Option ℤ :=
  (Timecode.matchTc timecode).map fun p =>
    (if p.1 then -1 else 1) * Timecode.framenumberOfGroups rate p.2

/-- Source `Timecode(timecode, rate, mode)` with a string first argument. -/
def Timecode.ofStr (timecode : String) (rate : ℤ) (mode : Timecode.Mode) :
    Except PyErr Timecode :=
  match Timecode.setFromString rate timecode with
  | none => .error (.invalidTimecode "Timecode string is formatted incorrectly")
  | some fn => Timecode.ofInt fn rate mode

/-- Source `Timecode.is_negative`. -/
def Timecode.is_negative (t : Timecode) : Bool :=
  t.framenumber < 0

/-- The adjusted frame number `self.mode.to_adjusted_framenumber(self.framenumber,
self.rate)` used by the formatted-element properties. -/
def Timecode.adjusted (t : Timecode) : ℤ :=
  t.mode.to_adjusted_framenumber t.framenumber t.rate

/-- Source `Timecode.frames`: `int(abs(adjusted) % rate)`, negated for negative
timecodes. -/
def Timecode.frames (t : Timecode) : ℤ :=
  (|t.adjusted| % t.rate) * (if t.is_negative then -1 else 1)

/-- Source `Timecode.seconds`: `int(abs(adjusted) / rate % 60)`, negated for
negative timecodes (exact integer model of the float arithmetic). -/
def Timecode.seconds (t : Timecode) : ℤ :=
  (Int.fmod (Int.fdiv |t.adjusted| t.rate) 60) * (if t.is_negative then -1 else 1)

/-- Source `Timecode.minutes`: `int(abs(adjusted) / rate / 60 % 60)`. -/
def Timecode.minutes (t : Timecode) : ℤ :=
  (Int.fmod (Int.fdiv (Int.fdiv |t.adjusted| t.rate) 60) 60) *
    (if t.is_negative then -1 else 1)

/-- Source `Timecode.hours`: `int(abs(adjusted) / rate / 60 / 60)`. -/
def Timecode.hours (t : Timecode) : ℤ :=
  (Int.fdiv (Int.fdiv (Int.fdiv |t.adjusted| t.rate) 60) 60) *
    (if t.is_negative then -1 else 1)

/-- Python `f"{n:02d}"` for a natural number: zero-pad to two digits. -/
def pad2 (n : ℕ) : String :=
  if n < 10 then "0" ++ Nat.repr n else Nat.repr n

/-- Source `Timecode.formatted()` with default arguments (`rollover=False`,
`signed=True`). -/
def Timecode.formatted (t : Timecode) : String :=
  let sign := if t.adjusted < 0 then "-" else ""
  let separator := if t.mode = Timecode.Mode.DF then ";" else ":"
  sign ++ pad2 t.hours.natAbs ++ ":" ++ pad2 t.minutes.natAbs ++ ":" ++
    pad2 t.seconds.natAbs ++ separator ++ pad2 t.frames.natAbs

/-- Python `rate or self.rate` for the `resample` rate argument: `None` and
`0` are falsy and fall back to the current rate. -/
def pyOrInt (x : Option ℤ) (dflt : ℤ) : ℤ :=
  match x with
  | none => dflt
  | some v => if v = 0 then dflt else v

/-- Source `Timecode.resample(rate, mode)` (timecode.py lines 240-256).  `mode or
self.mode` treats only `None` as falsy (the mode classes are truthy).  The
float `factor` and `round` are modelled exactly by `pyRoundFrac` on the
integer numerator/denominator. -/
def Timecode.resample (t : Timecode) (rate : Option ℤ) (mode : Option Timecode.Mode) :
    Except PyErr Timecode :=
  let new_rate := pyOrInt rate t.rate
  let new_mode := mode.getD t.mode
  if new_rate = t.rate ∧ new_mode = t.mode then .ok t
  else if t.mode = Timecode.Mode.DF ∨ new_mode = Timecode.Mode.DF then
    .error (.notImplementedError "No DF not yet too hard")
  else
    Timecode.ofInt (pyRoundFrac (t.framenumber * new_rate) t.rate) new_rate new_mode

/-- Source `Timecode.is_compatible(other)` for a `Timecode` argument (the
`isinstance` test is satisfied). -/
def Timecode.is_compatible (a b : Timecode) : Bool :=
  a.mode = b.mode ∧ a.rate = b.rate

/-- Source `Timecode.__eq__` between two Timecodes (`_cmp_normalize` is the
identity on a `Timecode` argument). -/
def Timecode.eqB (a b : Timecode) : Bool :=
  a.is_compatible b ∧ a.framenumber = b.framenumber

/-- Python `<` between the mode *classes*: `type` objects define no
ordering, so this always raises `TypeError`. -/
def Timecode.Mode.pyLt (_ _ : Timecode.Mode) : Except PyErr Bool :=
  .error (.typeError "TypeError: operand < is not supported between mode classes")

/-- Python `>` between the mode classes: always `TypeError`. -/
def Timecode.Mode.pyGt (_ _ : Timecode.Mode) : Except PyErr Bool :=
  .error (.typeError "TypeError: operand > is not supported between mode classes")

/-- Source `Timecode.__lt__` between two Timecodes: mode inequality is tested with
`!=` (identity, fine), but the mode comparison itself uses `<` on the mode
classes and raises. -/
def Timecode.lt (a b : Timecode) : Except PyErr Bool :=
  if a.mode ≠ b.mode then Timecode.Mode.pyLt a.mode b.mode
  else if a.rate ≠ b.rate then .ok (decide (a.rate < b.rate))
  else .ok (decide (a.framenumber < b.framenumber))

/-- Source `Timecode.__gt__`, mirror of `__lt__`. -/
def Timecode.gt (a b : Timecode) : Except PyErr Bool :=
  if a.mode ≠ b.mode then Timecode.Mode.pyGt a.mode b.mode
  else if a.rate ≠ b.rate then .ok (decide (a.rate > b.rate))
  else .ok (decide (a.framenumber > b.framenumber))

/-- Source `Timecode.__le__`: evaluates `self.mode > other.mode` unconditionally
first, which raises `TypeError` on the mode classes. -/
def Timecode.le (a b : Timecode) : Except PyErr Bool := do
  let g ← Timecode.Mode.pyGt a.mode b.mode
  if g then pure false
  else if a.rate > b.rate then pure false
  else pure (decide (a.framenumber ≤ b.framenumber))

/-- Source `Timecode.__ge__`: evaluates `self.mode < other.mode` unconditionally
first, which raises `TypeError` on the mode classes. -/
def Timecode.ge (a b : Timecode) : Except PyErr Bool := do
  let l ← Timecode.Mode.pyLt a.mode b.mode
  if l then pure false
  else if a.rate < b.rate then pure false
  else pure (decide (a.framenumber ≥ b.framenumber))

/-- Source `Timecode.__add__` for a `Timecode` right operand: resample the addend
to the rate/mode of the left operand, then construct a new `Timecode` from the
frame-number sum. -/
def Timecode.add (a b : Timecode) : Except PyErr Timecode := do
  let b2 ← b.resample (some a.rate) (some a.mode)
  Timecode.ofInt (a.framenumber + b2.framenumber) a.rate a.mode

/-- Source `Timecode.__sub__` for a `Timecode` right operand. -/
def Timecode.sub (a b : Timecode) : Except PyErr Timecode := do
  let b2 ← b.resample (some a.rate) (some a.mode)
  Timecode.ofInt (a.framenumber - b2.framenumber) a.rate a.mode

/-- The `TimecodeRange` value: `_start` and `_duration`. -/
structure TimecodeRange where
  start : Timecode
  duration : Timecode
deriving DecidableEq, Repr

/-- The trailing duration check of `TimecodeRange.__init__`:
`if self._duration < 1: raise IncompatibleTimecode(...)`.  The literal `1`
is normalized by `_cmp_normalize` into `Timecode(1, duration.rate,
duration.mode)` (which runs `_validate`), then compared with `__lt__`. -/
def TimecodeRange.checkDuration (s d : Timecode) : Except PyErr TimecodeRange := do
  let one ← Timecode.ofInt 1 d.rate d.mode
  let b ← d.lt one
  if b then .error (.incompatibleTimecode "End timecode must occur after start timecode")
  else .ok ⟨s, d⟩

/-- Source `TimecodeRange.__init__(start=, end=, duration=)` (timecode.py lines
374-406): the three keyword-argument branches in source order. -/
def TimecodeRange.make (start stop duration : Option Timecode) :
    Except PyErr TimecodeRange :=
  match start, stop, duration with
  | some s, e?, some d =>
    if ¬ s.is_compatible d then
      .error (.incompatibleTimecode "Start and duration timecodes must be of the same rate and mode")
    else
      match e? with
      | some e => do
        let sum ← s.add d
        if ¬ e.eqB sum then
          .error (.incompatibleTimecode "End timecode does not agree with given start and duration")
        else TimecodeRange.checkDuration s d
      | none => TimecodeRange.checkDuration s d
  | some s, some e, none =>
    if ¬ s.is_compatible e then
      .error (.incompatibleTimecode "Start and duration timecodes must be of the same rate and mode")
    else do
      let dur ← e.sub s
      TimecodeRange.checkDuration s dur
  | none, some e, some d =>
    if ¬ d.is_compatible e then
      .error (.incompatibleTimecode "Start and duration timecodes must be of the same rate and mode")
    else do
      let st ← e.sub d
      TimecodeRange.checkDuration st d
  | _, _, _ => .error (.valueError "Must supply two of start, end or duration")

/-- Source `TimecodeRange.end`: the derived `start + duration`. -/
def TimecodeRange.stop (r : TimecodeRange) : Except PyErr Timecode :=
  r.start.add r.duration

/-- The `_validate` invariant as a proposition. -/
def Timecode.Valid (t : Timecode) : Prop :=
  1 ≤ t.rate ∧ (t.mode = Timecode.Mode.DF → t.rate % 30 = 0)

instance (t : Timecode) : Decidable t.Valid := by
  unfold Timecode.Valid
  infer_instance

/-! ## posttools/edl.py -/

/-- Source `str.lower()` (ASCII, which covers every string the parser compares). -/
def lowerStr (s : String) : String :=
  ⟨s.data.map Char.toLower⟩

/-- Source `str.upper()`. -/
def upperStr (s : String) : String :=
  ⟨s.data.map Char.toUpper⟩

/-- Source `str.strip()` on a character list. -/
def trimChars (cs : List Char) : List Char :=
  ((cs.dropWhile Char.isWhitespace).reverse.dropWhile Char.isWhitespace).reverse

/-- Source `str.strip()`. -/
def trimStr (s : String) : String :=
  ⟨trimChars s.data⟩

/-- Helper for `str.split()`: split on runs of whitespace, discarding
empty pieces.  `acc` is the current token, reversed. -/
def splitWsAux : List Char → List Char → List String
  | [], acc => if acc.isEmpty then [] else [⟨acc.reverse⟩]
  | c :: cs, acc =>
    if c.isWhitespace then
      if acc.isEmpty then splitWsAux cs [] else (⟨acc.reverse⟩ : String) :: splitWsAux cs []
    else splitWsAux cs (c :: acc)

/-- Source `str.split()` with no arguments. -/
def splitWs (s : String) : List String :=
  splitWsAux s.data []

/-- Source `str.isnumeric()` for the ASCII tokens of an EDL. -/
def isNumericStr (s : String) : Bool :=
  ¬ s.data.isEmpty ∧ s.data.all Char.isDigit

/-- Source `int(s)` for a token of ASCII digits. -/
def toNatStr (s : String) : ℕ :=
  natOfDigits s.data

/-- Source `Fcm`: the EDL frame counting modes. -/
inductive Fcm where
  | NON_DROP_FRAME
  | DROP_FRAME
deriving DecidableEq, Repr

/-- Source `SourceReel` and its concrete classes `BlackSource` (`"BL"`),
`AuxSource` (`"AX"`) and `TapeSource` (a non-empty whitespace-free name). -/
inductive SourceReel where
  | black
  | aux
  | tape (name : String)
deriving DecidableEq, Repr

/-- Source `SourceReel.from_string`: recognizers tried in the fixed order
Black, Aux, Tape. -/
def SourceReel.from_string (reel_name : String) : Except String SourceReel :=
  if upperStr reel_name = "BL" then .ok .black
  else if upperStr reel_name = "AX" then .ok .aux
  else if ¬ (trimStr reel_name).data.isEmpty ∧ ¬ reel_name.data.any Char.isWhitespace then
    .ok (.tape reel_name)
  else .error "Reel name format is not recognized"

/-- Source `Track.Type`: Video (`"V"`) or Audio (`"A"`). -/
inductive TrackType where
  | Video
  | Audio
deriving DecidableEq, Repr

/-- The `.value` of the enum member. -/
def TrackType.value : TrackType → String
  | .Video => "V"
  | .Audio => "A"

/-- The `Track` value: `_type` and `_index`. -/
structure Track where
  type : TrackType
  index : ℕ
deriving DecidableEq, Repr

/-- Source `Track.__init__(name)`: `Type(name[0].upper())` (ValueError for any
letter other than A/V — including the `B` the statement grammars accept),
then `int(name[1:])` when present, defaulting to 1. -/
def Track.ofString (name : String) : Except String Track :=
  match name.data with
  | [] => .error "string index out of range"
  | c :: rest => do
    let ty ← (if c.toUpper = 'V' then .ok TrackType.Video
      else if c.toUpper = 'A' then .ok TrackType.Audio
      else .error ((⟨[c.toUpper]⟩ : String) ++ " is not a valid Track.Type"))
    if rest.isEmpty then .ok ⟨ty, 1⟩
    else if rest.all Char.isDigit then .ok ⟨ty, natOfDigits rest⟩
    else .error "invalid literal for int() with base 10"

/-- Source `Track.name`: the kind letter, with the index appended when above 1. -/
def Track.name (t : Track) : String :=
  if t.index > 1 then t.type.value ++ Nat.repr t.index else t.type.value

/-- Source `Track.__eq__`: by canonical name. -/
def Track.eqB (a b : Track) : Bool :=
  a.name = b.name

/-- Source `Track.__lt__` for a `Track` argument: by `track_index` alone. -/
def Track.ltB (a b : Track) : Bool :=
  a.index < b.index

/-- The variant payload of a standard form statement: Cut, Dissolve
(length) or Wipe (length and wipe id). -/
inductive StatementKind where
  | cut
  | dissolve (length : ℕ)
  | wipe (length : ℕ) (id : ℕ)
deriving DecidableEq, Repr

/-- Shared fields of a `StandardFormStatement` plus its variant payload. -/
structure Statement where
  event_number : Option ℕ
  reel : SourceReel
  tracks : List Track
  timecode_source : TimecodeRange
  timecode_record : TimecodeRange
  kind : StatementKind
deriving DecidableEq, Repr

/-- Source `StandardFormStatement.fcm`: hard-coded to NON-DROP FRAME in the
source (its TODO notwithstanding). -/
def Statement.fcm (_ : Statement) : Fcm :=
  Fcm.NON_DROP_FRAME

/-- Does a token consist of ASCII digits (regex `\d+`)? -/
def isDigitsTok (s : String) : Bool :=
  ¬ s.data.isEmpty ∧ s.data.all Char.isDigit

/-- Does a token match `\d{2}:\d{2}:\d{2}:\d{2}`? -/
def isTcTok (s : String) : Bool :=
  match s.data with
  | [a, b, c, d, e, f, g, h, i, j, k] =>
    a.isDigit ∧ b.isDigit ∧ c = ':' ∧ d.isDigit ∧ e.isDigit ∧ f = ':' ∧
      g.isDigit ∧ h.isDigit ∧ i = ':' ∧ j.isDigit ∧ k.isDigit
  | _ => false

/-- Does a token match the track group `A\d*|B|V` (case-insensitive)? -/
def isTrackTok (s : String) : Bool :=
  match s.data with
  | [] => false
  | c :: rest =>
    (c.toUpper = 'A' ∧ rest.all Char.isDigit) ∨
      ((c.toUpper = 'B' ∨ c.toUpper = 'V') ∧ rest.isEmpty)

/-- Does a token match the wipe event type `W\d+` (case-insensitive)? -/
def isWipeTok (s : String) : Bool :=
  match s.data with
  | [] => false
  | c :: rest => c.toUpper = 'W' ∧ ¬ rest.isEmpty ∧ rest.all Char.isDigit

/-- The anchored statement patterns reject a line opening with whitespace. -/
def noLeadingWs (s : String) : Bool :=
  match s.data with
  | [] => false
  | c :: _ => ¬ c.isWhitespace

/-- Source `StandardFormStatement._parse_shared_elements` followed by the
statement constructor, given the already-matched tokens: build the track,
the source and record `TimecodeRange`s (timecodes at the default rate 24
NDF) and the `SourceReel`, propagating any exception as its message. -/
def Statement.build (n reel trk t1 t2 t3 t4 : String) (kind : StatementKind) :
    Except String Statement := do
  let track ← Track.ofString trk
  let src_in ← (Timecode.ofStr t1 24 .NDF).mapError PyErr.message
  let src_out ← (Timecode.ofStr t2 24 .NDF).mapError PyErr.message
  let timecode_source ← (TimecodeRange.make (some src_in) (some src_out) none).mapError PyErr.message
  let rec_in ← (Timecode.ofStr t3 24 .NDF).mapError PyErr.message
  let rec_out ← (Timecode.ofStr t4 24 .NDF).mapError PyErr.message
  let timecode_record ← (TimecodeRange.make (some rec_in) (some rec_out) none).mapError PyErr.message
  let source ← SourceReel.from_string reel
  .ok ⟨some (toNatStr n), source, [track], timecode_source, timecode_record, kind⟩

/-- Source `CutStatement.PAT_EVENT.match` + `parse_from_pattern`: `none` when the
regex does not match; `some` of the construction result when it does. -/
def parseCutLine (line : String) : Option (Except String Statement) :=
  if ¬ noLeadingWs line then none
  else
    match splitWs line with
    | [n, reel, trk, et, t1, t2, t3, t4] =>
      if isDigitsTok n ∧ isTrackTok trk ∧ lowerStr et = "c" ∧
          isTcTok t1 ∧ isTcTok t2 ∧ isTcTok t3 ∧ isTcTok t4 then
        some (Statement.build n reel trk t1 t2 t3 t4 .cut)
      else none
    | _ => none

/-- Source `DissolveStatement.PAT_EVENT.match` + `parse_from_pattern`. -/
def parseDissolveLine (line : String) : Option (Except String Statement) :=
  if ¬ noLeadingWs line then none
  else
    match splitWs line with
    | [n, reel, trk, et, dur, t1, t2, t3, t4] =>
      if isDigitsTok n ∧ isTrackTok trk ∧ lowerStr et = "d" ∧ isDigitsTok dur ∧
          isTcTok t1 ∧ isTcTok t2 ∧ isTcTok t3 ∧ isTcTok t4 then
        some (Statement.build n reel trk t1 t2 t3 t4 (.dissolve (toNatStr dur)))
      else none
    | _ => none

/-- Source `WipeStatement.PAT_EVENT.match` + `parse_from_pattern` (the wipe id is
`event_type[1:]`). -/
def parseWipeLine (line : String) : Option (Except String Statement) :=
  if ¬ noLeadingWs line then none
  else
    match splitWs line with
    | [n, reel, trk, et, dur, t1, t2, t3, t4] =>
      if isDigitsTok n ∧ isTrackTok trk ∧ isWipeTok et ∧ isDigitsTok dur ∧
          isTcTok t1 ∧ isTcTok t2 ∧ isTcTok t3 ∧ isTcTok t4 then
        some (Statement.build n reel trk t1 t2 t3 t4
          (.wipe (toNatStr dur) (natOfDigits et.data.tail)))
      else none
    | _ => none

/-- Source `Event._identify_line`: try the statement grammars in registry order
(Cut, Dissolve, Wipe); an unmatched line is returned as itself (a
comment); a matched line that fails to construct propagates the error. -/
def Event.identifyLine (line : String) : Except String (Statement ⊕ String) :=
  match parseCutLine line with
  | some r => r.map Sum.inl
  | none =>
    match parseDissolveLine line with
    | some r => r.map Sum.inl
    | none =>
      match parseWipeLine line with
      | some r => r.map Sum.inl
      | none => .ok (.inr line)

/-- An `Event`: its standard form statements, its comment lines, and the
frame counting mode derived from the statements. -/
structure Event where
  sfs : List Statement
  comments : List String
  fcm : Fcm
deriving DecidableEq, Repr

/-- The line-classification loop of `Event.from_string`: skip blank lines,
split the rest into statements and comments, preserving order. -/
def Event.classifyLines : List String → Except String (List Statement × List String)
  | [] => .ok ([], [])
  | l :: rest =>
    if (trimStr l).data.isEmpty then Event.classifyLines rest
    else do
      let p ← Event.identifyLine l
      let rest2 ← Event.classifyLines rest
      match p with
      | .inl s => .ok (s :: rest2.1, rest2.2)
      | .inr c => .ok (rest2.1, c :: rest2.2)

/-- Source `Event.from_string` / `Event.__init__` on the buffered lines (the
source joins the buffer with newlines and immediately re-splits it): the
set `{s.fcm for s in sfs}` must have exactly one element, which fails
precisely when no statement parsed. -/
def Event.ofLines (lines : List String) : Except String Event := do
  let p ← Event.classifyLines lines
  let fcms := (p.1.map Statement.fcm).dedup
  if fcms.length ≠ 1 then .error "Standard Form Statements must have matching FCMs"
  else .ok ⟨p.1, p.2, fcms.headD Fcm.NON_DROP_FRAME⟩

/-- Source `Edl._is_begin_new_event(line, current_index)` (edl.py lines 571-588),
transcribed literally.  Note the membership test compares
`first_token.lower()` against the *upper-case* literals `{"FCM:",
"SPLIT:"}`, so it can never succeed.  `split(maxsplit=1)[0]` raises
`IndexError` on a whitespace-only line. -/
def Edl.is_begin_new_event (line : String) (current_index : ℕ) : Except String Bool :=
  if current_index = 0 then .ok false
  else
    match splitWs line with
    | [] => .error "list index out of range"
    | first_token :: _ =>
      if ["FCM:", "SPLIT:"].contains (lowerStr first_token) then .ok true
      else if isNumericStr first_token ∧ toNatStr first_token ≠ current_index then .ok true
      else .ok false

/-- Source `Edl._parse_title_from_line`. -/
def Edl.parse_title_from_line (line : String) : Except String String :=
  if ¬ List.isPrefixOf "title:".data (lowerStr line).data then
    .error "Title was expected, but not found"
  else
    let title := trimChars (line.data.drop 6)
    if title.isEmpty then .error "Title is empty" else .ok ⟨title⟩

/-- Source `Edl._parse_fcm_from_line` (defined by the source but never invoked by
`from_file`). -/
def Edl.parse_fcm_from_line (line : String) : Except String Fcm :=
  if ¬ List.isPrefixOf "fcm:".data (lowerStr line).data then
    .error "FCM was expected, but not found"
  else
    let v := trimStr ⟨line.data.drop 4⟩
    if v = "NON-DROP FRAME" then .ok .NON_DROP_FRAME
    else if v = "DROP FRAME" then .ok .DROP_FRAME
    else .error "Invalid FCM specified"

/-- A parse failure of `Edl.from_file`: the message, annotated with a
1-based line number exactly when the source wraps the exception in
`ValueError(f"Line {line_num+2}: {e}")`. -/
structure PErr where
  line : Option ℕ
  msg : String
deriving DecidableEq, Repr

/-- The loop state of `Edl.from_file`: flushed events, the buffered lines
of the current event, and the current event number. -/
structure PState where
  events : List Event
  buffer : List String
  current : ℕ
deriving DecidableEq, Repr

/-- The body of the `for` loop of `Edl.from_file` for one non-empty line
(everything inside the `try`): flush the buffer when a new event begins,
record the current event number from a leading numeric token, buffer the
line. -/
def Edl.loopBody (line : String) (st : PState) : Except String PState := do
  let st ←
    if ¬ st.buffer.isEmpty then do
      let b ← Edl.is_begin_new_event line st.current
      if b then do
        let ev ← Event.ofLines st.buffer
        pure (⟨st.events ++ [ev], [], 0⟩ : PState)
      else pure st
    else pure st
  let st ←
    match splitWs line with
    | [] => (.error "list index out of range" : Except String PState)
    | tok :: _ =>
      if isNumericStr tok then pure { st with current := toNatStr tok } else pure st
  pure { st with buffer := st.buffer ++ [line] }

/-- The `for line_num, line_edl in enumerate(...)` loop of `Edl.from_file`:
`idx` is the 0-based index into the post-title lines, empty lines are
skipped, and any exception from the body is wrapped with the 1-based file
line number `idx + 2`. -/
def Edl.loop : ℕ → PState → List String → Except PErr PState
  | _, st, [] => .ok st
  | idx, st, line :: rest =>
    if line = "" then Edl.loop (idx + 1) st rest
    else
      match Edl.loopBody line st with
      | .error m => .error ⟨some (idx + 2), m⟩
      | .ok st2 => Edl.loop (idx + 1) st2 rest

/-- The `Edl` document. -/
structure Edl where
  title : String
  fcm : Fcm
  events : List Event
deriving DecidableEq, Repr

/-- Source `Edl.from_file` over the lines of the file (newlines stripped):
parse the title from the first line, run the event-grouping loop over the
remainder, flush any final buffered event *outside* the try/except (so
without line annotation), and return the document — with `fcm` hard-coded
to `Fcm.NON_DROP_FRAME`. -/
def Edl.from_file (lines : List String) : Except PErr Edl :=
  match Edl.parse_title_from_line (lines.headD "") with
  | .error m => .error ⟨none, m⟩
  | .ok title =>
    match Edl.loop 0 ⟨[], [], 0⟩ lines.tail with
    | .error e => .error e
    | .ok st =>
      if st.buffer.isEmpty then .ok ⟨title, Fcm.NON_DROP_FRAME, st.events⟩
      else
        match Event.ofLines st.buffer with
        | .error m => .error ⟨none, m⟩
        | .ok ev => .ok ⟨title, Fcm.NON_DROP_FRAME, st.events ++ [ev]⟩

/-! ## Helper lemmas -/

/-- Constructing a `Timecode` from an integer succeeds, and stores the
arguments verbatim, whenever the rate/mode pair is valid. -/
theorem Timecode.ofInt_ok (fn rate : ℤ) (mode : Timecode.Mode)
    (h1 : 1 ≤ rate) (h2 : mode = Timecode.Mode.DF → rate % 30 = 0) :
    Timecode.ofInt fn rate mode = .ok ⟨fn, rate, mode⟩ := by
  have hn : ¬ (rate < 1) := not_lt.mpr h1
  have hm : ¬ ((⟨fn, rate, mode⟩ : Timecode).mode = Timecode.Mode.DF ∧
      (⟨fn, rate, mode⟩ : Timecode).rate % 30 ≠ 0) := by
    rintro ⟨hdf, hne⟩
    exact hne (h2 hdf)
  simp only [Timecode.ofInt, Timecode.validate]
  rw [if_neg hn, if_neg hm]
  rfl

/-- Source `resample` is a pass-through when called with the rate and mode
the value already has. -/
theorem Timecode.resample_some_eq_ok (b : Timecode) (R : ℤ) (M : Timecode.Mode)
    (hr : R = b.rate) (hm : M = b.mode) :
    b.resample (some R) (some M) = .ok b := by
  subst hr
  subst hm
  simp [Timecode.resample, pyOrInt]

/-- Source `__add__` on two compatible timecodes (with a valid left operand) adds
the frame numbers. -/
theorem Timecode.add_compat (a b : Timecode) (h1 : 1 ≤ a.rate)
    (h2 : a.mode = Timecode.Mode.DF → a.rate % 30 = 0)
    (hm : a.mode = b.mode) (hr : a.rate = b.rate) :
    a.add b = .ok ⟨a.framenumber + b.framenumber, a.rate, a.mode⟩ := by
  unfold Timecode.add
  rw [Timecode.resample_some_eq_ok b a.rate a.mode hr hm]
  simpa using Timecode.ofInt_ok (a.framenumber + b.framenumber) a.rate a.mode h1 h2

/-- Source `__sub__` on two compatible timecodes subtracts the frame numbers. -/
theorem Timecode.sub_compat (a b : Timecode) (h1 : 1 ≤ a.rate)
    (h2 : a.mode = Timecode.Mode.DF → a.rate % 30 = 0)
    (hm : a.mode = b.mode) (hr : a.rate = b.rate) :
    a.sub b = .ok ⟨a.framenumber - b.framenumber, a.rate, a.mode⟩ := by
  unfold Timecode.sub
  rw [Timecode.resample_some_eq_ok b a.rate a.mode hr hm]
  simpa using Timecode.ofInt_ok (a.framenumber - b.framenumber) a.rate a.mode h1 h2

/-- Source `__lt__` on two timecodes of the same mode and rate compares frame
numbers without raising. -/
theorem Timecode.lt_same (a b : Timecode) (hm : a.mode = b.mode) (hr : a.rate = b.rate) :
    a.lt b = .ok (decide (a.framenumber < b.framenumber)) := by
  unfold Timecode.lt
  rw [if_neg (by simp [hm]), if_neg (by simp [hr])]

/-- The trailing duration check succeeds on a valid, strictly positive
duration. -/
theorem TimecodeRange.checkDuration_ok (s d : Timecode) (h1 : 1 ≤ d.rate)
    (h2 : d.mode = Timecode.Mode.DF → d.rate % 30 = 0) (hp : 1 ≤ d.framenumber) :
    TimecodeRange.checkDuration s d = .ok ⟨s, d⟩ := by
  unfold TimecodeRange.checkDuration
  rw [Timecode.ofInt_ok 1 d.rate d.mode h1 h2]
  have hlt : d.lt ⟨1, d.rate, d.mode⟩ = .ok false := by
    rw [Timecode.lt_same d ⟨1, d.rate, d.mode⟩ rfl rfl]
    simp [not_lt.mpr hp]
  simp [Bind.bind, Except.bind, hlt]

/-- The trailing duration check rejects a non-positive duration with
`IncompatibleTimecode`. -/
theorem TimecodeRange.checkDuration_err (s d : Timecode) (h1 : 1 ≤ d.rate)
    (h2 : d.mode = Timecode.Mode.DF → d.rate % 30 = 0) (hp : d.framenumber < 1) :
    TimecodeRange.checkDuration s d
      = .error (.incompatibleTimecode "End timecode must occur after start timecode") := by
  unfold TimecodeRange.checkDuration
  rw [Timecode.ofInt_ok 1 d.rate d.mode h1 h2]
  have hlt : d.lt ⟨1, d.rate, d.mode⟩ = .ok true := by
    rw [Timecode.lt_same d ⟨1, d.rate, d.mode⟩ rfl rfl]
    simp [hp]
  simp [Bind.bind, Except.bind, hlt]

/-! ## Claims -/

/-- Claim C1: constructing a `Timecode` at rate 30 in DF mode from the
dropped labels `00:01:00;00` / `00:01:00;01` should snap forward and format
as `00:01:00;02`, and `00:01:00;02` should format to itself.  The code does
not do this: because `DF.to_adjusted_framenumber` returns only the drop
offset (2 here) instead of the adjusted frame number, all three inputs
format as `00:00:00;02`. -/
theorem claim_c1_df_snap_eval :
    (Timecode.ofStr "00:01:00;00" 30 .DF).map Timecode.formatted = .ok "00:00:00;02" ∧
    (Timecode.ofStr "00:01:00;01" 30 .DF).map Timecode.formatted = .ok "00:00:00;02" ∧
    (Timecode.ofStr "00:01:00;02" 30 .DF).map Timecode.formatted = .ok "00:00:00;02" ∧
    "00:00:00;02" ≠ "00:01:00;02" := by
  refine ⟨by decide, by decide, by decide, by decide⟩

/-- Claim C2: round-trip identity `Timecode(text).format() == text` for
canonical labels should hold for every valid (rate, mode); the
drop-frame formatting defect breaks it for DF labels.  The canonical,
non-dropped DF label `01:00:00;00` at rate 30 (asserted verbatim by the
repository test `test_30DF_fromstring`) formats as `00:00:03;18`. -/
theorem claim_c2_roundtrip_eval :
    (Timecode.ofStr "01:00:00;00" 30 .DF).map Timecode.formatted = .ok "00:00:03;18" ∧
    "00:00:03;18" ≠ "01:00:00;00" ∧
    (Timecode.ofStr "01:00:00:00" 24 .NDF).map Timecode.formatted = .ok "01:00:00:00" := by
  refine ⟨by decide, by decide, by decide⟩

/-- Claim C3: ordering should be a total order with precedence mode (NDF
before DF), rate, frame count, with `<=`/`>=` agreeing.  In the code the
mode objects are classes without ordering, so comparing timecodes of
different modes with `<` raises `TypeError`, and `<=`/`>=` evaluate
`mode > mode` / `mode < mode` unconditionally and raise even for equal
modes. -/
theorem claim_c3_ordering_eval :
    Timecode.lt ⟨0, 24, .NDF⟩ ⟨0, 30, .DF⟩
      = .error (.typeError "TypeError: operand < is not supported between mode classes") ∧
    Timecode.le ⟨0, 24, .NDF⟩ ⟨1, 24, .NDF⟩
      = .error (.typeError "TypeError: operand > is not supported between mode classes") ∧
    Timecode.ge ⟨1, 24, .NDF⟩ ⟨0, 24, .NDF⟩
      = .error (.typeError "TypeError: operand < is not supported between mode classes") ∧
    Timecode.lt ⟨0, 24, .NDF⟩ ⟨1, 24, .NDF⟩ = .ok true := by
  refine ⟨by decide, by decide, by decide, by decide⟩

/-- Claim C4: while an event is buffered, a line with leading token `FCM:`
or `SPLIT:` should start a new event just as a differing numeric token
does.  In the code `first_token.lower()` is tested for membership in the
*upper-case* set `{"FCM:", "SPLIT:"}`, so the test never succeeds and such
lines do not start a new event (a differing numeric token still does). -/
theorem claim_c4_fcm_boundary_eval :
    Edl.is_begin_new_event "FCM: DROP FRAME" 1 = .ok false ∧
    Edl.is_begin_new_event "SPLIT:    Audio DELAY=  00:00:00:05" 1 = .ok false ∧
    Edl.is_begin_new_event "002  AX  V  C  01:00:00:00 01:00:01:00 01:00:00:00 01:00:01:00" 1
      = .ok true ∧
    (Edl.from_file ["TITLE: T",
        "001  TAPE001  V  C  01:00:00:00 01:00:10:00 01:00:00:00 01:00:10:00",
        "FCM: DROP FRAME",
        "002  TAPE002  V  C  01:00:00:00 01:00:10:00 01:00:10:00 01:00:20:00"]).map
      (fun e => e.events.map Event.comments)
      = .ok [["FCM: DROP FRAME"], []] := by
  refine ⟨by decide, by decide, by decide, by decide⟩

/-- Claim C9 (counterexample): the claim says `Track` ordering follows the
canonical name; but `Track("A3") < Track("V2")` is false in the code
(indices 3 < 2 fails) although the name `"A3"` orders before `"V2"`. -/
theorem claim_c9_counterexample :
    Track.ltB ⟨.Audio, 3⟩ ⟨.Video, 2⟩ = false ∧
    Track.name ⟨.Audio, 3⟩ = "A3" ∧ Track.name ⟨.Video, 2⟩ = "V2" ∧
    ("A3").data < ("V2").data := by
  refine ⟨by decide, by decide, by decide, by decide⟩

/-- Claim C9 (amended): `Track` equality is by canonical name, but `<` is
by `track_index` alone, ignoring the kind. -/
theorem claim_c9_track_order :
    ∀ a b : Track, (Track.eqB a b = true ↔ a.name = b.name) ∧
      (Track.ltB a b = true ↔ a.index < b.index) := by
  intro a b
  constructor
  · simp [Track.eqB]
  · simp [Track.ltB]

/-- Claim C10: `resample` with a falsy rate (omitted/None, or 0) and no
mode returns the timecode unchanged at its original rate and mode — the
falsy rate is silently replaced by the current rate rather than rejected
as an invalid rate below 1. -/
theorem claim_c10_falsy_rate :
    ∀ t : Timecode, t.resample none none = .ok t ∧ t.resample (some 0) none = .ok t := by
  intro t
  constructor
  · simp [Timecode.resample, pyOrInt]
  · simp [Timecode.resample, pyOrInt]

/-- Claim C5 (counterexample): parsing a well-formed document whose header
line is `FCM: DROP FRAME` does *not* yield a DROP FRAME document: the
the fcm of the parsed document is NON-DROP FRAME. -/
theorem claim_c5_counterexample :
    (Edl.from_file ["TITLE: SAMPLE", "FCM: DROP FRAME",
      "001  TAPE001  V  C  01:00:00:00 01:00:10:00 01:00:00:00 01:00:10:00"]).map Edl.fcm
      = .ok Fcm.NON_DROP_FRAME ∧
    Fcm.NON_DROP_FRAME ≠ Fcm.DROP_FRAME := by
  refine ⟨by decide, by decide⟩

/-- Claim C5 (amended): `Edl.from_file` never extracts the frame counting
mode from the `FCM:` header (`_parse_fcm_from_line` is dead code); every
successfully parsed document has `fcm = NON-DROP FRAME`, and the header
line is retained as an ordinary event comment line instead. -/
theorem claim_c5_fcm_hardcoded :
    ∀ (lines : List String) (e : Edl),
      Edl.from_file lines = .ok e → e.fcm = Fcm.NON_DROP_FRAME := by
  intro lines e h
  unfold Edl.from_file at h
  split at h
  · simp at h
  · split at h
    · simp at h
    · split at h
      · injection h with h2
        subst h2
        rfl
      · split at h
        · simp at h
        · injection h with h2
          subst h2
          rfl

/-- Witness for C5: the amended theorem applied to a concrete document. -/
theorem claim_c5_witness :
    Edl.fcm ⟨"T", Fcm.NON_DROP_FRAME,
      [⟨[⟨some 1, .tape "TAPE001", [⟨.Video, 1⟩],
          ⟨⟨86400, 24, .NDF⟩, ⟨240, 24, .NDF⟩⟩,
          ⟨⟨86400, 24, .NDF⟩, ⟨240, 24, .NDF⟩⟩, .cut⟩], [], .NON_DROP_FRAME⟩]⟩
      = Fcm.NON_DROP_FRAME :=
  claim_c5_fcm_hardcoded
    ["TITLE: T", "001  TAPE001  V  C  01:00:00:00 01:00:10:00 01:00:00:00 01:00:10:00"]
    _ (by decide)

/-- Claim C8 (counterexample): a document whose final flushed event fails
to parse (here: no statement parsed from the buffered lines) surfaces an
error with *no* line-number annotation, because the final flush happens
outside the try/except of the loop. -/
theorem claim_c8_counterexample :
    Edl.from_file ["TITLE: X", "FCM: DROP FRAME"]
      = .error ⟨none, "Standard Form Statements must have matching FCMs"⟩ := by
  decide

/-- Claim C8 (amended): an error raised while processing a line inside the
enumeration loop of `from_file` is always annotated with a 1-based line
number; but a malformed (or missing) title line, and a failure while
flushing the final buffered event at end of input, surface without line
annotation.  In every case the whole parse fails with no document. -/
theorem claim_c8_error_lines :
    (∀ (idx : ℕ) (st : PState) (lines : List String) (e : PErr),
        Edl.loop idx st lines = .error e → e.line.isSome = true) ∧
    Edl.from_file ["garbage"] = .error ⟨none, "Title was expected, but not found"⟩ ∧
    Edl.from_file ["TITLE: T", "   "] = .error ⟨some 2, "list index out of range"⟩ ∧
    Edl.from_file ["TITLE: T", "FCM: NON-DROP FRAME"]
      = .error ⟨none, "Standard Form Statements must have matching FCMs"⟩ := by
  refine ⟨?_, by decide, by decide, by decide⟩
  intro idx st lines
  induction lines generalizing idx st with
  | nil =>
    intro e h
    simp [Edl.loop] at h
  | cons l rest ih =>
    intro e h
    unfold Edl.loop at h
    split at h
    · exact ih _ _ e h
    · split at h
      · injection h with h2
        subst h2
        rfl
      · exact ih _ _ e h

/-- Witness for C8: the loop-annotation statement applied to a concrete
failing input. -/
theorem claim_c8_witness :
    (PErr.line ⟨some 2, "list index out of range"⟩).isSome = true :=
  claim_c8_error_lines.1 0 ⟨[], [], 0⟩ ["   "] ⟨some 2, "list index out of range"⟩ (by decide)

/-- Claim C6: `resample` (1) returns the value unchanged when the
effective new rate and mode equal the current ones, (2) rescales the frame
count to `round(framenumber * new_rate / old_rate)` at the new rate when
neither mode is drop-frame (and the new rate is a valid rate), and (3)
fails with `NotImplementedError` whenever drop-frame is involved on either
side of an actual change. -/
theorem claim_c6_resample :
    (∀ (t : Timecode) (r : Option ℤ) (m : Option Timecode.Mode),
        pyOrInt r t.rate = t.rate → m.getD t.mode = t.mode →
        t.resample r m = .ok t) ∧
    (∀ (t : Timecode) (r : Option ℤ) (m : Option Timecode.Mode),
        ¬ (pyOrInt r t.rate = t.rate ∧ m.getD t.mode = t.mode) →
        t.mode ≠ Timecode.Mode.DF → m.getD t.mode ≠ Timecode.Mode.DF →
        1 ≤ pyOrInt r t.rate →
        t.resample r m
          = .ok ⟨pyRoundFrac (t.framenumber * pyOrInt r t.rate) t.rate,
              pyOrInt r t.rate, m.getD t.mode⟩) ∧
    (∀ (t : Timecode) (r : Option ℤ) (m : Option Timecode.Mode),
        ¬ (pyOrInt r t.rate = t.rate ∧ m.getD t.mode = t.mode) →
        (t.mode = Timecode.Mode.DF ∨ m.getD t.mode = Timecode.Mode.DF) →
        t.resample r m = .error (.notImplementedError "No DF not yet too hard")) := by
  refine ⟨?_, ?_, ?_⟩
  · intro t r m h1 h2
    simp only [Timecode.resample]
    rw [if_pos ⟨h1, h2⟩]
  · intro t r m hne hm1 hm2 hr
    simp only [Timecode.resample]
    rw [if_neg hne, if_neg (by rintro (h | h); exacts [hm1 h, hm2 h])]
    exact Timecode.ofInt_ok _ _ _ hr (fun hdf => absurd hdf hm2)
  · intro t r m hne hdf
    simp only [Timecode.resample]
    rw [if_neg hne, if_pos hdf]

/-- Witness for C6: each clause of the resample theorem applied at a
concrete timecode. -/
theorem claim_c6_witness :
    Timecode.resample ⟨86400, 24, .NDF⟩ (some 24) none = .ok ⟨86400, 24, .NDF⟩ ∧
    Timecode.resample ⟨86400, 24, .NDF⟩ (some 30) none = .ok ⟨108000, 30, .NDF⟩ ∧
    Timecode.resample ⟨1800, 30, .DF⟩ (some 60) none
      = .error (.notImplementedError "No DF not yet too hard") := by
  refine ⟨claim_c6_resample.1 _ _ _ (by decide) (by decide), ?_,
    claim_c6_resample.2.2 _ _ _ (by decide) (by decide)⟩
  have h := claim_c6_resample.2.1 ⟨86400, 24, .NDF⟩ (some 30) none
    (by decide) (by decide) (by decide) (by decide)
  exact h.trans (by decide)

/-- Claim C7: `TimecodeRange` construction (i) fails with a `ValueError`
argument-count error when fewer than two of start/end/duration are given;
(ii) fails with `IncompatibleTimecode` when the two supplied values are
rate/mode-incompatible, (iii) when all three are supplied and the end does
not equal start + duration, or (iv) when the resulting duration is not
strictly positive; and (v) otherwise succeeds, with the derived end equal
to start + duration. -/
theorem claim_c7_range_make :
    (TimecodeRange.make none none none
      = .error (.valueError "Must supply two of start, end or duration")) ∧
    (∀ s, TimecodeRange.make (some s) none none
      = .error (.valueError "Must supply two of start, end or duration")) ∧
    (∀ e, TimecodeRange.make none (some e) none
      = .error (.valueError "Must supply two of start, end or duration")) ∧
    (∀ d, TimecodeRange.make none none (some d)
      = .error (.valueError "Must supply two of start, end or duration")) ∧
    (∀ (s d : Timecode) (e? : Option Timecode), s.is_compatible d = false →
      TimecodeRange.make (some s) e? (some d)
        = .error (.incompatibleTimecode
            "Start and duration timecodes must be of the same rate and mode")) ∧
    (∀ s e : Timecode, s.is_compatible e = false →
      TimecodeRange.make (some s) (some e) none
        = .error (.incompatibleTimecode
            "Start and duration timecodes must be of the same rate and mode")) ∧
    (∀ d e : Timecode, d.is_compatible e = false →
      TimecodeRange.make none (some e) (some d)
        = .error (.incompatibleTimecode
            "Start and duration timecodes must be of the same rate and mode")) ∧
    (∀ s e d : Timecode, s.Valid → s.is_compatible d = true →
      Timecode.eqB e ⟨s.framenumber + d.framenumber, s.rate, s.mode⟩ = false →
      TimecodeRange.make (some s) (some e) (some d)
        = .error (.incompatibleTimecode
            "End timecode does not agree with given start and duration")) ∧
    (∀ s d : Timecode, s.Valid → s.is_compatible d = true → d.framenumber < 1 →
      TimecodeRange.make (some s) none (some d)
        = .error (.incompatibleTimecode "End timecode must occur after start timecode")) ∧
    (∀ s e : Timecode, s.Valid → s.is_compatible e = true →
      e.framenumber - s.framenumber < 1 →
      TimecodeRange.make (some s) (some e) none
        = .error (.incompatibleTimecode "End timecode must occur after start timecode")) ∧
    (∀ s d : Timecode, s.Valid → s.is_compatible d = true → 1 ≤ d.framenumber →
      TimecodeRange.make (some s) none (some d) = .ok ⟨s, d⟩ ∧
      TimecodeRange.stop ⟨s, d⟩
        = .ok ⟨s.framenumber + d.framenumber, s.rate, s.mode⟩) ∧
    (∀ s e : Timecode, s.Valid → s.is_compatible e = true →
      1 ≤ e.framenumber - s.framenumber →
      TimecodeRange.make (some s) (some e) none
        = .ok ⟨s, ⟨e.framenumber - s.framenumber, e.rate, e.mode⟩⟩ ∧
      TimecodeRange.stop ⟨s, ⟨e.framenumber - s.framenumber, e.rate, e.mode⟩⟩
        = .ok ⟨s.framenumber + (e.framenumber - s.framenumber), s.rate, s.mode⟩) ∧
    (∀ d e : Timecode, e.Valid → d.is_compatible e = true → 1 ≤ d.framenumber →
      TimecodeRange.make none (some e) (some d)
        = .ok ⟨⟨e.framenumber - d.framenumber, e.rate, e.mode⟩, d⟩ ∧
      TimecodeRange.stop ⟨⟨e.framenumber - d.framenumber, e.rate, e.mode⟩, d⟩
        = .ok ⟨e.framenumber - d.framenumber + d.framenumber, e.rate, e.mode⟩) ∧
    (∀ s e d : Timecode, s.Valid → s.is_compatible d = true →
      Timecode.eqB e ⟨s.framenumber + d.framenumber, s.rate, s.mode⟩ = true →
      1 ≤ d.framenumber →
      TimecodeRange.make (some s) (some e) (some d) = .ok ⟨s, d⟩) := by
  refine ⟨by decide, fun s => rfl, fun e => rfl, fun d => rfl, ?_, ?_, ?_, ?_, ?_, ?_, ?_, ?_, ?_, ?_⟩
  · intro s d e? hc
    cases e? with
    | none => simp [TimecodeRange.make, hc]
    | some e => simp [TimecodeRange.make, hc]
  · intro s e hc
    simp [TimecodeRange.make, hc]
  · intro d e hc
    simp [TimecodeRange.make, hc]
  · intro s e d hv hc hne
    have hc2 : s.mode = d.mode ∧ s.rate = d.rate := by
      simpa [Timecode.is_compatible] using hc
    simp only [TimecodeRange.make]
    rw [if_neg (by simp [hc])]
    rw [Timecode.add_compat s d hv.1 hv.2 hc2.1 hc2.2]
    simp [Bind.bind, Except.bind, hne]
  · intro s d hv hc hlt
    have hc2 : s.mode = d.mode ∧ s.rate = d.rate := by
      simpa [Timecode.is_compatible] using hc
    simp only [TimecodeRange.make]
    rw [if_neg (by simp [hc])]
    exact TimecodeRange.checkDuration_err s d (by rw [← hc2.2]; exact hv.1)
      (fun hdf => by rw [← hc2.2]; exact hv.2 (hc2.1.trans hdf)) hlt
  · intro s e hv hc hlt
    have hc2 : s.mode = e.mode ∧ s.rate = e.rate := by
      simpa [Timecode.is_compatible] using hc
    simp only [TimecodeRange.make]
    rw [if_neg (by simp [hc])]
    rw [Timecode.sub_compat e s (by rw [← hc2.2]; exact hv.1)
      (fun hdf => by rw [← hc2.2]; exact hv.2 (hc2.1.trans hdf)) hc2.1.symm hc2.2.symm]
    simp only [Bind.bind, Except.bind]
    exact TimecodeRange.checkDuration_err s ⟨e.framenumber - s.framenumber, e.rate, e.mode⟩
      (by rw [← hc2.2]; exact hv.1)
      (fun hdf => by rw [← hc2.2]; exact hv.2 (hc2.1.trans hdf)) hlt
  · intro s d hv hc hpos
    have hc2 : s.mode = d.mode ∧ s.rate = d.rate := by
      simpa [Timecode.is_compatible] using hc
    refine ⟨?_, ?_⟩
    · simp only [TimecodeRange.make]
      rw [if_neg (by simp [hc])]
      exact TimecodeRange.checkDuration_ok s d (by rw [← hc2.2]; exact hv.1)
        (fun hdf => by rw [← hc2.2]; exact hv.2 (hc2.1.trans hdf)) hpos
    · exact Timecode.add_compat s d hv.1 hv.2 hc2.1 hc2.2
  · intro s e hv hc hpos
    have hc2 : s.mode = e.mode ∧ s.rate = e.rate := by
      simpa [Timecode.is_compatible] using hc
    refine ⟨?_, ?_⟩
    · simp only [TimecodeRange.make]
      rw [if_neg (by simp [hc])]
      rw [Timecode.sub_compat e s (by rw [← hc2.2]; exact hv.1)
        (fun hdf => by rw [← hc2.2]; exact hv.2 (hc2.1.trans hdf)) hc2.1.symm hc2.2.symm]
      simp only [Bind.bind, Except.bind]
      exact TimecodeRange.checkDuration_ok s ⟨e.framenumber - s.framenumber, e.rate, e.mode⟩
        (by rw [← hc2.2]; exact hv.1)
        (fun hdf => by rw [← hc2.2]; exact hv.2 (hc2.1.trans hdf)) hpos
    · exact Timecode.add_compat s ⟨e.framenumber - s.framenumber, e.rate, e.mode⟩
        hv.1 hv.2 hc2.1 hc2.2
  · intro d e hv hc hpos
    have hc2 : d.mode = e.mode ∧ d.rate = e.rate := by
      simpa [Timecode.is_compatible] using hc
    refine ⟨?_, ?_⟩
    · simp only [TimecodeRange.make]
      rw [if_neg (by simp [hc])]
      rw [Timecode.sub_compat e d hv.1 hv.2 hc2.1.symm hc2.2.symm]
      simp only [Bind.bind, Except.bind]
      exact TimecodeRange.checkDuration_ok ⟨e.framenumber - d.framenumber, e.rate, e.mode⟩ d
        (by rw [hc2.2]; exact hv.1)
        (fun hdf => by rw [hc2.2]; exact hv.2 (hc2.1.symm.trans hdf)) hpos
    · exact Timecode.add_compat ⟨e.framenumber - d.framenumber, e.rate, e.mode⟩ d
        hv.1 hv.2 hc2.1.symm hc2.2.symm
  · intro s e d hv hc heq hpos
    have hc2 : s.mode = d.mode ∧ s.rate = d.rate := by
      simpa [Timecode.is_compatible] using hc
    simp only [TimecodeRange.make]
    rw [if_neg (by simp [hc])]
    rw [Timecode.add_compat s d hv.1 hv.2 hc2.1 hc2.2]
    simp only [Bind.bind, Except.bind]
    rw [if_neg (by simp [heq])]
    exact TimecodeRange.checkDuration_ok s d (by rw [← hc2.2]; exact hv.1)
      (fun hdf => by rw [← hc2.2]; exact hv.2 (hc2.1.trans hdf)) hpos

/-- Witness for C7: the construction theorem applied at concrete
timecodes. -/
theorem claim_c7_witness :
    TimecodeRange.make (some ⟨0, 24, .NDF⟩) none (some ⟨10, 24, .NDF⟩)
      = .ok ⟨⟨0, 24, .NDF⟩, ⟨10, 24, .NDF⟩⟩ ∧
    TimecodeRange.make (some ⟨0, 24, .NDF⟩) none (some ⟨0, 30, .NDF⟩)
      = .error (.incompatibleTimecode
          "Start and duration timecodes must be of the same rate and mode") ∧
    TimecodeRange.make (some ⟨0, 24, .NDF⟩) (some ⟨5, 24, .NDF⟩) (some ⟨10, 24, .NDF⟩)
      = .error (.incompatibleTimecode
          "End timecode does not agree with given start and duration") ∧
    TimecodeRange.make (some ⟨0, 24, .NDF⟩) (some ⟨0, 24, .NDF⟩) none
      = .error (.incompatibleTimecode "End timecode must occur after start timecode") := by
  refine ⟨(claim_c7_range_make.2.2.2.2.2.2.2.2.2.2.1 _ _ (by decide) (by decide) (by decide)).1,
    claim_c7_range_make.2.2.2.2.1 _ _ none (by decide),
    claim_c7_range_make.2.2.2.2.2.2.2.1 _ _ _ (by decide) (by decide) (by decide),
    claim_c7_range_make.2.2.2.2.2.2.2.2.2.1 _ _ (by decide) (by decide) (by decide)⟩
